import Mathlib

/-!
Verification of the example programs in the "Introduction to STL" article
(src/unnamed/part_000, src/unnamed/part_001, src/examples/GENERN1.CPP).

The repository contains only the article text and standalone example
programs; the container library they call (vector, set, priority_queue,
sort, generate_n) is an external library that is described, not
implemented, here.  Each library operation is therefore modelled from the
spec's description of its behaviour, while each example program's sequence
of calls is transcribed from the source.
-/

namespace HpStl

/-! ## Vector model -/

/-- Modelled from the spec: `vector<int>` is a generic container holding a
sequence of integer values in order; the library is external to this
repository, so the container is modelled as the list of its elements.
A default-constructed vector is empty. -/
def emptyVec : List Int := []

/-- Modelled from the spec: `v.push_back (x)` appends the value `x` at the
end of the vector. -/
def push_back (v : List Int) (x : Int) : List Int := v ++ [x]

/-- Modelled from the spec: `v.size ()` reports the number of elements the
container holds. -/
def size (v : List Int) : Nat := v.length

/-! ## The first vector example (part_000 lines 65-76) -/

/-- The vector `v` of the first vector example after `push_back (42)` then
`push_back (1)` on a default-constructed vector. -/
def vectorExampleV : List Int := push_back (push_back emptyVec 42) 1

/-- The single line the first vector example prints:
`cout << "v.size () = " << v.size () << endl`. -/
def vectorExampleOutput : List String :=
  ["v.size () = " ++ toString (size vectorExampleV)]

/-! ## The sort algorithm and the sort example (part_000 lines 131-159) -/

/-- Modelled from the spec: insertion of a value into an ascending list,
the auxiliary step of the sorting algorithm below. -/
def insertAsc (x : Int) : List Int → List Int
  | [] => [x]
  | y :: ys => if x ≤ y then x :: y :: ys else y :: insertAsc x ys

/-- Modelled from the spec: `sort (first, last)` reorders the range into
ascending order; modelled as insertion sort on the element list. -/
def sort : List Int → List Int
  | [] => []
  | x :: xs => insertAsc x (sort xs)

/-- The file-scope array of the sort example: `int array [] = { 1, 42, 3 }`. -/
def sortExampleArrayInit : List Int := [1, 42, 3]

/-- The array of the sort example after `sort (array, array + 3)`. -/
def sortExampleArray : List Int := sort sortExampleArrayInit

/-- The file-scope vector `v` of the sort example after the three
`push_back` calls and `sort (v.begin (), v.end ())`. -/
def sortExampleV : List Int :=
  sort (push_back (push_back (push_back emptyVec 1) 42) 3)

/-- The lines printed by the sort example: one `"array has "` line per
array element in order, then one `"vector has "` line per vector element
in order. -/
def sortExampleOutput : List String :=
  sortExampleArray.map (fun x => "array has " ++ toString x) ++
    sortExampleV.map (fun x => "vector has " ++ toString x)

/-! ## The set example (part_000 lines 174-191) -/

/-- Modelled from the spec: `s.insert (x)` on a `set<int, less<int> >`
places `x` at its ordered position and ignores a duplicate; the ordered
set is modelled as the strictly ascending list of its elements. -/
def setInsert (x : Int) : List Int → List Int
  | [] => [x]
  | y :: ys =>
    if x < y then x :: y :: ys
    else if x = y then y :: ys
    else y :: setInsert x ys

/-- A default-constructed `set<int, less<int> >` is empty. -/
def emptySet : List Int := []

/-- The set `s` of the set example after `insert (1)`, `insert (42)`,
`insert (3)`. -/
def setExampleS : List Int := setInsert 3 (setInsert 42 (setInsert 1 emptySet))

/-- The lines printed by the set example: `cout << *p << endl` for `p`
from `s.begin ()` to `s.end ()`. -/
def setExampleOutput : List String := setExampleS.map toString

/-! ## The priority-queue model and example (part_001) -/

/-- Modelled from the spec: a max-ordered priority structure is modelled
as the descending list of its elements, so that the largest element is at
the head; `q.push (x)` inserts `x` at its ordered position. -/
def pqPush (x : Int) : List Int → List Int
  | [] => [x]
  | y :: ys => if y ≤ x then x :: y :: ys else y :: pqPush x ys

/-- A default-constructed priority queue is empty. -/
def emptyPq : List Int := []

/-- Modelled from the spec: `q.empty ()` tests whether the queue holds no
elements. -/
def pqEmpty (q : List Int) : Bool := q.isEmpty

/-- The loop condition `!q.empty ()` of the drain loop in part_001. -/
def loopGuard (q : List Int) : Bool := !(pqEmpty q)

/-- Modelled from the spec: `q.top ()` yields the largest element; it has
no result on an empty queue. -/
def pqTop : List Int → Option Int
  | [] => none
  | x :: _ => some x

/-- Modelled from the spec: `q.pop ()` removes the largest element; it has
no result on an empty queue. -/
def pqPop : List Int → Option (List Int)
  | [] => none
  | _ :: q => some q

/-- The queue `q` of the priority-queue example after `push (42)`,
`push (101)`, `push (69)`. -/
def pqExampleQueue : List Int := pqPush 69 (pqPush 101 (pqPush 42 emptyPq))

/-- The values printed by the drain loop of part_001
(`while (!q.empty ()) { cout << q.top () << endl; q.pop (); }`): while the
guard holds, the head (top) is printed and removed (pop).  The structural
recursion mirrors the loop's termination argument: each pop removes one
element, so the size strictly decreases. -/
def drain : List Int → List Int
  | [] => []
  | x :: q => x :: drain q

/-- The output of the priority-queue example. -/
def pqExampleOutput : List Int := drain pqExampleQueue

/-! ## The iterator example (part_000 lines 93-116) -/

/-- The file-scope array of the iterator example:
`int array [] = { 1, 42, 3 }`. -/
def iterExampleArray : List Int := [1, 42, 3]

/-- The file-scope vector `v` of the iterator example after
`push_back (1)`, `push_back (42)`, `push_back (3)`. -/
def iterExampleV : List Int := push_back (push_back (push_back emptyVec 1) 42) 3

/-- The lines printed by the array loop of the iterator example
(`for (p1 = array; p1 != array + 3; p1++)`): one line per array element in
order. -/
def iterArrayLines : List String :=
  iterExampleArray.map (fun x => "array has " ++ toString x)

/-- The offset of the iterator `p2` from `v.begin ()` when the condition
of the vector loop is evaluated for the (n+1)-th time.  The loop header is
`for (p2 = v.begin (); p2 != v.end (); v++)`: `p2` starts at offset 0, and
neither the loop body nor the increment expression - which is `v++`, not
`p2++` - modifies `p2`, so each iteration leaves the offset unchanged. -/
def iterLoopP2 : Nat → Nat
  | 0 => 0
  | n + 1 => iterLoopP2 n

/-- The line printed by iteration `k` of the vector loop: `"vector has "`
followed by `*p2`, the element of `v` at the current offset of `p2`. -/
def iterVectorLine (k : Nat) : String :=
  "vector has " ++ toString (iterExampleV.getD (iterLoopP2 k) 0)

/-- The lines printed by the first `n` iterations of the vector loop. -/
def iterVectorLines (n : Nat) : List String := (List.range n).map iterVectorLine

/-- The loop condition `p2 != v.end ()` as evaluated before iteration `n`:
true while the offset of `p2` differs from `v.size ()`. -/
def iterLoopContinues (n : Nat) : Bool := iterLoopP2 n != size iterExampleV

/-! ## GENERN1.CPP -/

/-- Modelled from the spec: `generate_n (first, n, gen)` overwrites the
`n` positions starting at `first` with successive generator results.  Here
`first` is `v1.begin ()`, so the write at offset `k` of the vector
receives the result of generator call `k`. -/
def generate_n_from (gen : Nat → Int) : Nat → Nat → List Int → List Int
  | _, 0, v => v
  | _, _ + 1, [] => []
  | k, n + 1, _ :: v => gen k :: generate_n_from gen (k + 1) n v

/-- `generate_n` starting at the beginning of the vector. -/
def generate_n (gen : Nat → Int) (n : Nat) (v : List Int) : List Int :=
  generate_n_from gen 0 n v

/-- Modelled from the spec: `vector<int> v1 (10)` is a vector of 10
value-initialised (zero) elements. -/
def genern1Init : List Int := List.replicate 10 0

/-- The vector `v1` of GENERN1.CPP after
`generate_n (v1.begin (), v1.size (), rand)`, where `r k` is the result
of the k-th `rand` call.  `rand` is never seeded, so `r` is one fixed
sequence for the whole run. -/
def genern1V (r : Nat → Int) : List Int :=
  generate_n r (size genern1Init) genern1Init

/-- The indices visited by the print loop `for (int i = 0; i < 10; i++)`. -/
def genern1Indices : List Nat := List.range 10

/-- The values printed by GENERN1.CPP: `v1[i]` for each loop index `i`. -/
def genern1Output (r : Nat → Int) : List Int :=
  genern1Indices.map (fun i => (genern1V r).getD i 0)

/-- One run of GENERN1.CPP: the printed values and the exit status, which
is 0 from `return 0`. -/
def genern1Run (r : Nat → Int) : List Int × Nat := (genern1Output r, 0)

/-! ## The drain loop of part_001 with explicit, fallible top and pop -/

/-- The drain loop of part_001 with every `q.top ()` / `q.pop ()` call
made explicit and fallible: on each pass the guard `!q.empty ()` is
evaluated first; only when it holds are top and pop invoked, and a top or
pop that fails (on an empty queue) aborts the run with `none`.  The fuel
argument bounds the number of passes. -/
def drainFuel : Nat → List Int → Option (List Int)
  | 0, _ => none
  | fuel + 1, q =>
    if loopGuard q then
      match pqTop q, pqPop q with
      | some x, some rest => (drainFuel fuel rest).map (fun out => x :: out)
      | _, _ => none
    else some []

/-- The drain loop run with enough fuel for its `q.length + 1` guard
evaluations. -/
def drainChecked (q : List Int) : Option (List Int) :=
  drainFuel (q.length + 1) q

/-! ## Declaration structure of the examples

For each example, the container or array variables it declares at file
scope - outside `main` - transcribed from the source text. -/

/-- File-scope variables of the first vector example (part_000 lines
65-76): none, `v` is local to `main`. -/
def vectorExampleFileVars : List String := []

/-- File-scope variables of the iterator example: part_000 lines 90-91
declare `int array []` and `vector<int> v` outside `main`. -/
def iterExampleFileVars : List String := ["array", "v"]

/-- File-scope variables of the sort example: part_000 lines 133-134
declare `int array []` and `vector<int> v` outside `main`. -/
def sortExampleFileVars : List String := ["array", "v"]

/-- File-scope variables of the set example: none, `s` is local to
`main`. -/
def setExampleFileVars : List String := []

/-- File-scope variables of part_001: none, `q` is local to `main`. -/
def pqExampleFileVars : List String := []

/-- File-scope variables of GENERN1.CPP: none, `v1` is local to `main`. -/
def genern1FileVars : List String := []

/-! ## Helper lemmas -/

/-- Since the increment expression of the vector loop is `v++`, the offset
of `p2` stays 0 after any number of iterations. -/
theorem iterLoopP2_eq_zero : ∀ n, iterLoopP2 n = 0
  | 0 => rfl
  | n + 1 => iterLoopP2_eq_zero n

/-- Every iteration of the vector loop prints the first element of `v`. -/
theorem iterVectorLine_eq (k : Nat) : iterVectorLine k = "vector has 1" := by
  rw [iterVectorLine, iterLoopP2_eq_zero]; rfl

/-- After `n` iterations the vector loop has printed `n` copies of
`"vector has 1"`. -/
theorem iterVectorLines_eq (n : Nat) :
    iterVectorLines n = List.replicate n "vector has 1" := by
  induction n with
  | zero => rfl
  | succ m ih =>
    have h : iterVectorLines (m + 1) = iterVectorLines m ++ [iterVectorLine m] := by
      simp [iterVectorLines, List.range_succ]
    rw [h, ih, iterVectorLine_eq, List.replicate_succ']

/-- With fuel exceeding the queue size, the fallible drain succeeds and
produces exactly the output of the drain loop. -/
theorem drainFuel_eq_drain :
    ∀ fuel q, List.length q < fuel → drainFuel fuel q = some (drain q) := by
  intro fuel
  induction fuel with
  | zero => intro q h; exact absurd h (Nat.not_lt_zero _)
  | succ m ih =>
    intro q h
    cases q with
    | nil => rfl
    | cons x rest =>
      have hr : List.length rest < m := by
        simp only [List.length_cons] at h
        omega
      simp [drainFuel, loopGuard, pqEmpty, pqTop, pqPop, drain, ih rest hr]

/-! ## Claim theorems C1 - C4 -/

/-- C1: in the sort example, sorting the three-element sequence
{1, 42, 3} - both as the C array and as the vector built by the three
push_back calls - yields {1, 3, 42}, so the program prints the lines
"array has 1", "array has 3", "array has 42", then "vector has 1",
"vector has 3", "vector has 42". -/
theorem sort_example_sorts_and_prints :
    sortExampleArray = [1, 3, 42] ∧ sortExampleV = [1, 3, 42] ∧
      sortExampleOutput =
        ["array has 1", "array has 3", "array has 42",
         "vector has 1", "vector has 3", "vector has 42"] :=
  ⟨by decide, by decide, rfl⟩

/-- C2: in the priority-queue example, after pushing 42, 101 and 69 into
an empty max-ordered priority queue, the drain loop prints exactly 101,
then 69, then 42. -/
theorem pq_example_prints_descending : pqExampleOutput = [101, 69, 42] := by
  decide

/-- C3: in the set example, after inserting 1, 42 and 3 into an empty
`set<int, less<int> >`, iterating from begin to end prints exactly the
three lines 1, 3, 42 in that order. -/
theorem set_example_prints_ordered :
    setExampleS = [1, 3, 42] ∧ setExampleOutput = ["1", "3", "42"] :=
  ⟨by decide, rfl⟩

/-- C4: in the first vector example, after `push_back (42)` then
`push_back (1)` on an initially empty vector, `v.size ()` returns 2 and
the program prints the line "v.size () = 2". -/
theorem vector_example_size_two :
    size vectorExampleV = 2 ∧ vectorExampleOutput = ["v.size () = 2"] :=
  ⟨by decide, rfl⟩

/-! ## Claim theorems C5 - C10 -/

/-- C5 (code evaluated at the failing loop): the array loop of the
iterator example prints the three documented array lines, but the vector
loop - whose increment expression is `v++` rather than `p2++` - leaves
`p2` at offset 0 forever: after any number `n` of iterations it has
printed `n` copies of "vector has 1", and its output never equals the
three documented vector lines, which require `p2` to advance. -/
theorem iter_example_vector_loop_never_matches :
    iterArrayLines = ["array has 1", "array has 42", "array has 3"] ∧
      ∀ n, iterVectorLines n = List.replicate n "vector has 1" ∧
        iterVectorLines n ≠ ["vector has 1", "vector has 42", "vector has 3"] := by
  refine ⟨rfl, fun n => ⟨iterVectorLines_eq n, ?_⟩⟩
  rw [iterVectorLines_eq n]
  intro hc
  have hn : n = 3 := by
    have hlen := congrArg List.length hc
    simpa using hlen
  subst hn
  exact absurd hc (by decide)

/-- C6 (code evaluated at the failing example): the claim fails on the
iterator example, whose vector loop condition `p2 != v.end ()` still
holds after every number of iterations - `v++` never advances `p2` - so
that example never reaches `return 0`.  GENERN1.CPP itself does exit with
status 0, and its printed values are exactly the first ten results of the
fixed, never-seeded rand sequence. -/
theorem every_example_fixed_output_fails_on_iter :
    (∀ n, iterLoopContinues n = true) ∧
      ∀ r : Nat → Int,
        genern1Run r = ([r 0, r 1, r 2, r 3, r 4, r 5, r 6, r 7, r 8, r 9], 0) := by
  constructor
  · intro n
    rw [iterLoopContinues, iterLoopP2_eq_zero]
    rfl
  · intro r
    rfl

/-- C7 counterexample: part_001 does test a runtime condition guarding
element access and removal on non-emptiness: its loop condition
`!q.empty ()` evaluates to false on the empty queue and to true on the
example queue, and when it is false the drain performs no top or pop at
all - returning successfully - even though top and pop themselves fail on
the empty queue. -/
theorem pq_example_guards_on_nonempty :
    loopGuard emptyPq = false ∧ loopGuard pqExampleQueue = true ∧
      drainChecked emptyPq = some [] ∧
      pqTop emptyPq = none ∧ pqPop emptyPq = none := by
  decide

/-- C7 amended: no example checks for or handles a failure condition
except the priority-queue example, whose loop condition `!q.empty ()`
guards every `q.top ()` and `q.pop ()` call on the queue being non-empty:
run with fallible top and pop, the drain loop never fails, on any starting
queue. -/
theorem pq_drain_never_fails (q : List Int) : drainChecked q = some (drain q) :=
  drainFuel_eq_drain (List.length q + 1) q (Nat.lt_succ_self _)

/-- C8 counterexample: part_000's sort and iterator examples declare
their container and array variables at file scope, not as locals of
`main`: `array` and `v` are the file-scope variables of each. -/
theorem file_scope_vars_in_part000 :
    sortExampleFileVars = ["array", "v"] ∧
      iterExampleFileVars = ["array", "v"] :=
  ⟨rfl, rfl⟩

/-- C8 amended: each example is a flat sequence of library calls with a
fixed executed operation sequence (the drain loop of part_001 runs
exactly three iterations and the GENERN1 print loop exactly ten) and
declares no file-scope container or array variables - except that the
sort and iterator examples of part_000 declare `array` and `v` at file
scope, and the iterator example's vector loop is not equivalent to any
straight-line program, its `p2` offset staying at 0 so that the loop
never exits. -/
theorem examples_flat_except_part000_globals :
    vectorExampleFileVars = [] ∧ setExampleFileVars = [] ∧
      pqExampleFileVars = [] ∧ genern1FileVars = [] ∧
      iterExampleFileVars = ["array", "v"] ∧
      sortExampleFileVars = ["array", "v"] ∧
      (drain pqExampleQueue).length = 3 ∧ genern1Indices.length = 10 ∧
      ∀ n, iterLoopP2 n = 0 :=
  ⟨rfl, rfl, rfl, rfl, rfl, rfl, by decide, by decide, iterLoopP2_eq_zero⟩

/-- C9 (code evaluated at the failing example): the priority-queue drain
loop does terminate after exactly three iterations, each pop removing the
head and strictly decreasing the size; but the vector loop of the
iterator example never terminates, the offset of `p2` never reaching
`v.size ()`, so not every example terminates. -/
theorem pq_drain_terminates_iter_loop_does_not :
    (drain pqExampleQueue).length = 3 ∧
      (∀ x : Int, ∀ q : List Int,
        pqPop (x :: q) = some q ∧ List.length q < List.length (x :: q)) ∧
      ∀ n, iterLoopP2 n ≠ size iterExampleV := by
  refine ⟨by decide, fun x q => ⟨rfl, by simp⟩, fun n => ?_⟩
  rw [iterLoopP2_eq_zero]
  decide

/-- C10: in GENERN1.CPP every access `v1[i]` of the print loop is in
bounds: for any rand sequence `r` and loop index `i < 10`, `i` is below
`v1.size () = 10`, and `v1[i]` is exactly the value the i-th generate_n
write stored, namely the i-th rand result. -/
theorem genern1_access_in_bounds (r : Nat → Int) (i : Nat) (h : i < 10) :
    i < size (genern1V r) ∧ (genern1V r).getD i 0 = r i := by
  have hv : genern1V r = [r 0, r 1, r 2, r 3, r 4, r 5, r 6, r 7, r 8, r 9] := rfl
  constructor
  · rw [hv]
    simpa [size] using h
  · interval_cases i <;> rw [hv] <;> rfl

/-- C10 witness: the in-bounds theorem instantiated at the identity rand
sequence and loop index 9. -/
theorem genern1_access_in_bounds_witness :
    (9 : Nat) < 10 ∧
      (9 < size (genern1V fun k => (k : Int)) ∧
        (genern1V fun k => (k : Int)).getD 9 0 = ((9 : Nat) : Int)) :=
  ⟨by decide, genern1_access_in_bounds (fun k => (k : Int)) 9 (by decide)⟩

end HpStl
